import Mathlib

/-!
Verification development for the BigMoeHunter hunting-advice application.

The repository ships a React Native front end (screens under
mobile/src/screens) and documents a Python scoring backend (the Hunting
Conditions Scoring Engine) that is not part of the checked-in sources.
The journal definitions below are translated from
mobile/src/screens/JournalScreen.js; the scoring-engine definitions are
modelled from the specification, as noted on each definition.

All machine numbers of the engine are modelled as exact rationals.
-/

/-- Modelled from the spec: enumerated sky-condition tag of an
EnvironmentalSnapshot (spec has the ordering Sunny > Partly Cloudy >
Overcast > Rain > Snow for visibility). The engine source holding this
enum is not in the repository sources. -/
inductive SkyCondition
  | Sunny
  | PartlyCloudy
  | Overcast
  | Rain
  | Snow
deriving DecidableEq

/-- Modelled from the spec: pressure sensitivity class of a species
(Low | Medium | High). The engine source is not in the repository. -/
inductive PressureSensitivity
  | Low
  | Medium
  | High
deriving DecidableEq

/-- Modelled from the spec: feeding pattern class of a species
(Crepuscular | Diurnal | Nocturnal). -/
inductive FeedingPattern
  | Crepuscular
  | Diurnal
  | Nocturnal
deriving DecidableEq

/-- Modelled from the spec: habitat quality rating of a location
(Poor | Fair | Good | Excellent), mapped to a numeric scale. -/
inductive HabitatQuality
  | Poor
  | Fair
  | Good
  | Excellent
deriving DecidableEq

/-- Modelled from the spec: access difficulty class of a location. -/
inductive AccessDifficulty
  | Easy
  | Moderate
  | Hard
deriving DecidableEq

/-- Modelled from the spec: the derived overall rating band
(Poor | Fair | Good | Excellent). -/
inductive Rating
  | Poor
  | Fair
  | Good
  | Excellent
deriving DecidableEq

/-- Modelled from the spec: the error taxonomy of the engine that is
recoverable per call: InvalidInput (malformed or out-of-physical-range
environmental values) and NotFound (unknown species or location key). -/
inductive EngineError
  | InvalidInput
  | NotFound
deriving DecidableEq

/-- Modelled from the spec: EnvironmentalSnapshot — immutable per-request
input of the engine. The timestamp is represented by the clock hour and
calendar month the scoring functions consume. -/
structure EnvironmentalSnapshot where
  temperature : ℚ
  windSpeed : ℚ
  condition : SkyCondition
  barometricPressure : ℚ
  hour : ℚ
  month : ℕ
deriving DecidableEq

/-- Modelled from the spec: SpeciesProfile — static behavioral parameters
of one species. -/
structure SpeciesProfile where
  speciesId : String
  optimalTempLow : ℚ
  optimalTempHigh : ℚ
  peakActivityHours : List (ℚ × ℚ)
  rutSeasonMonths : List ℕ
  feedingPattern : FeedingPattern
  windTolerance : ℚ
  pressureSensitivity : PressureSensitivity
deriving DecidableEq

/-- Modelled from the spec: LocationHabitat — static habitat record of one
named hunting location. -/
structure LocationHabitat where
  locationId : String
  habitatQuality : HabitatQuality
  populationDensity : ℚ
  accessDifficulty : AccessDifficulty
deriving DecidableEq

/-- Structural validity of an EnvironmentalSnapshot: physically plausible
readings (non-negative wind, positive pressure, hour on the clock). -/
def validSnapshot (s : EnvironmentalSnapshot) : Prop :=
  0 ≤ s.windSpeed ∧ 0 < s.barometricPressure ∧ 0 ≤ s.hour ∧ s.hour < 24

instance (s : EnvironmentalSnapshot) : Decidable (validSnapshot s) :=
  decidable_of_iff
    (0 ≤ s.windSpeed ∧ 0 < s.barometricPressure ∧ 0 ≤ s.hour ∧ s.hour < 24)
    Iff.rfl

/-- Validity of a SpeciesProfile per the spec invariants:
optimalTempRange.low < optimalTempRange.high, positive wind tolerance, and
all peak activity windows within [0,24). -/
def validProfile (p : SpeciesProfile) : Prop :=
  p.optimalTempLow < p.optimalTempHigh ∧ 0 < p.windTolerance ∧
    ∀ w ∈ p.peakActivityHours, 0 ≤ w.1 ∧ w.1 ≤ w.2 ∧ w.2 < 24

instance (p : SpeciesProfile) : Decidable (validProfile p) :=
  decidable_of_iff
    (p.optimalTempLow < p.optimalTempHigh ∧ 0 < p.windTolerance ∧
      ∀ w ∈ p.peakActivityHours, 0 ≤ w.1 ∧ w.1 ≤ w.2 ∧ w.2 < 24)
    Iff.rfl

/-- Clamp a raw score to the closed interval [0,100]. -/
def clampScore (q : ℚ) : ℚ := min 100 (max 0 q)

/-- Modelled from the spec: per-species linear degradation rate of the
temperature score, steeper for pressureSensitivity = High species. -/
def tempDegradeRate : PressureSensitivity → ℚ
  | .Low => 2
  | .Medium => 3
  | .High => 5

/-- Distance from a temperature to the nearest boundary of the optimal
range (zero inside the range). -/
def distToRange (low high t : ℚ) : ℚ :=
  if t < low then low - t
  else if high < t then t - high
  else 0

/-- Modelled from the spec: temperature score — 100 inside
optimalTempRange, degrading linearly to 0 with the distance from the
nearest range boundary, never negative. -/
def temperatureScore (p : SpeciesProfile) (t : ℚ) : ℚ :=
  max 0 (100 - tempDegradeRate p.pressureSensitivity *
    distToRange p.optimalTempLow p.optimalTempHigh t)

/-- Modelled from the spec: the configured floor of the wind score at
windTolerance. -/
def windScoreFloor : ℚ := 20

/-- Modelled from the spec: wind score — 100 at wind speed 0, linearly
decreasing to the floor at windTolerance, continuing to decrease (capped
at 0) beyond tolerance, reaching 0 at twice the tolerance. -/
def windScore (tol w : ℚ) : ℚ :=
  if w ≤ tol then 100 - (100 - windScoreFloor) * w / tol
  else max 0 (windScoreFloor - windScoreFloor * (w - tol) / tol)

/-- Modelled from the spec: multiplier of the low-pressure penalty,
scaled by pressureSensitivity. -/
def pressurePenaltyFactor : PressureSensitivity → ℚ
  | .Low => 10
  | .Medium => 20
  | .High => 30

/-- Modelled from the spec: pressure score — piecewise: rising or high
pressure (at least 30.00 inHg) scores high (at least 80), lower pressure
scores lower with the penalty magnitude scaled by pressureSensitivity. -/
def pressureScore (ps : PressureSensitivity) (pr : ℚ) : ℚ :=
  if 30 ≤ pr then 85
  else max 0 (85 - pressurePenaltyFactor ps * (30 - pr))

/-- Modelled from the spec: visibility score — fixed lookup from
sky-condition tag, Sunny > Partly Cloudy > Overcast > Rain > Snow. -/
def visibilityScore : SkyCondition → ℚ
  | .Sunny => 100
  | .PartlyCloudy => 85
  | .Overcast => 70
  | .Rain => 50
  | .Snow => 40

/-- Modelled from the spec: the configured floor of the time advantage. -/
def timeAdvantageFloor : ℚ := 20

/-- Distance from an hour to one peak-activity window [start, end). -/
def distToWindow (h : ℚ) (w : ℚ × ℚ) : ℚ :=
  if h < w.1 then w.1 - h
  else if w.2 ≤ h then h - w.2
  else 0

/-- Distance from an hour to the nearest peak-activity window (24 when
the window list is empty). -/
def distToNearestWindow (h : ℚ) (ws : List (ℚ × ℚ)) : ℚ :=
  (ws.map (distToWindow h)).foldr min 24

/-- Whether an hour falls within a [start, end) window. -/
def inWindow (h : ℚ) (w : ℚ × ℚ) : Bool :=
  decide (w.1 ≤ h ∧ h < w.2)

/-- Modelled from the spec: time advantage — 100 if the current hour is
inside any peakActivityHours window, degrading with distance from the
nearest window edge down to the configured floor. -/
def timeAdvantage (p : SpeciesProfile) (h : ℚ) : ℚ :=
  if p.peakActivityHours.any (inWindow h) then 100
  else max timeAdvantageFloor
    (100 - 20 * distToNearestWindow h p.peakActivityHours)

/-- Modelled from the spec: the baseline mid-range seasonal advantage for
in-season non-rut months. -/
def seasonalBaseline : ℚ := 60

/-- Modelled from the spec: seasonal advantage — 0 outside the declared
hunting season (the external regulations collaborator supplies the
in-season flag), 100 in a rut-season month, otherwise the baseline. -/
def seasonalAdvantage (p : SpeciesProfile) (inSeason : Bool) (month : ℕ) :
    ℚ :=
  if !inSeason then 0
  else if month ∈ p.rutSeasonMonths then 100
  else seasonalBaseline

/-- Modelled from the spec: numeric scale of habitat quality. -/
def habitatQualityValue : HabitatQuality → ℚ
  | .Poor => 25
  | .Fair => 50
  | .Good => 75
  | .Excellent => 100

/-- Modelled from the spec: location advantage — fixed weighted formula
over habitatQuality and populationDensity (the density index is read on a
0-100 scale). -/
def locationAdvantage (loc : LocationHabitat) : ℚ :=
  (3 / 5) * habitatQualityValue loc.habitatQuality +
    (2 / 5) * clampScore loc.populationDensity

/-- Modelled from the spec: ScoreBreakdown — one computed output per
evaluation, not mutated after construction. -/
structure ScoreBreakdown where
  temperatureScore : ℚ
  windScore : ℚ
  pressureScore : ℚ
  visibilityScore : ℚ
  weatherAdvantage : ℚ
  timeAdvantage : ℚ
  seasonalAdvantage : ℚ
  locationAdvantage : ℚ
  animalActivityScore : ℚ
  huntingEffectiveness : ℚ
  overallRating : Rating
deriving DecidableEq

/-- Modelled from the spec: the fixed rating bands of
huntingEffectiveness — [0,40) Poor, [40,65) Fair, [65,85) Good,
[85,100] Excellent. -/
def overallRatingOf (e : ℚ) : Rating :=
  if e < 40 then .Poor
  else if e < 65 then .Fair
  else if e < 85 then .Good
  else .Excellent

/-- Modelled from the spec: the Composite Scoring Engine — combines the
normalized sub-scores and the profile-derived advantages with the
documented weights, clamps both composites to [0,100], and derives the
rating band. -/
def computeBreakdown (snap : EnvironmentalSnapshot) (sp : SpeciesProfile)
    (loc : LocationHabitat) (inSeason : Bool) : ScoreBreakdown :=
  let ts := temperatureScore sp snap.temperature
  let ws := windScore sp.windTolerance snap.windSpeed
  let ps := pressureScore sp.pressureSensitivity snap.barometricPressure
  let vs := visibilityScore snap.condition
  let wa := (ts + ws + ps + vs) / 4
  let ta := timeAdvantage sp snap.hour
  let sa := seasonalAdvantage sp inSeason snap.month
  let la := locationAdvantage loc
  let aas := clampScore ((30 / 100) * ts + (20 / 100) * ws +
    (15 / 100) * ps + (20 / 100) * ta + (15 / 100) * sa)
  let he := clampScore ((40 / 100) * aas + (20 / 100) * wa +
    (20 / 100) * ta + (20 / 100) * la)
  { temperatureScore := ts
    windScore := ws
    pressureScore := ps
    visibilityScore := vs
    weatherAdvantage := wa
    timeAdvantage := ta
    seasonalAdvantage := sa
    locationAdvantage := la
    animalActivityScore := aas
    huntingEffectiveness := he
    overallRating := overallRatingOf he }

/-- Modelled from the spec: the four normalized advantage scores the
Environmental Snapshot Normalizer returns. -/
structure NormScores where
  temperatureScore : ℚ
  windScore : ℚ
  pressureScore : ℚ
  visibilityScore : ℚ
deriving DecidableEq

/-- Modelled from the spec: the Environmental Snapshot Normalizer —
fails with InvalidInput on missing or out-of-range readings (negative
wind, pressure at most 0) rather than silently clamping; otherwise
returns the four advantage scores. -/
def normalizeSnapshot (snap : EnvironmentalSnapshot) (sp : SpeciesProfile) :
    Except EngineError NormScores :=
  if validSnapshot snap then
    .ok
      { temperatureScore := temperatureScore sp snap.temperature
        windScore := windScore sp.windTolerance snap.windSpeed
        pressureScore :=
          pressureScore sp.pressureSensitivity snap.barometricPressure
        visibilityScore := visibilityScore snap.condition }
  else .error .InvalidInput

/-- Modelled from the spec: AdvisoryResult — the five ordered advisory
lists produced by the Recommendation Synthesizer. -/
structure AdvisoryResult where
  recommendations : List String
  tacticalAdvice : List String
  equipmentRecommendations : List String
  riskAssessment : List String
  opportunityAnalysis : List String
deriving DecidableEq

/-- The high-wind risk message of the risk rule table. -/
def highWindRiskMsg : String :=
  "Moderate/High winds - May affect shot accuracy"

/-- Modelled from the spec: the risk rule table — ordered
(predicate, message) pairs, data rather than control flow. -/
def riskRules : List ((ScoreBreakdown → Bool) × String) :=
  [(fun b => decide (b.windScore < 40), highWindRiskMsg),
   (fun b => decide (b.visibilityScore < 60),
     "Low visibility - Exercise extra caution")]

/-- Modelled from the spec: the recommendation rule table. -/
def recommendationRules : List ((ScoreBreakdown → Bool) × String) :=
  [(fun b => decide (85 ≤ b.animalActivityScore),
     "Excellent conditions - Animals highly active"),
   (fun b => decide (90 ≤ b.timeAdvantage),
     "Prime hunting time - Animals most active"),
   (fun b => decide (80 ≤ b.windScore),
     "Light winds - Excellent for stalking")]

/-- Modelled from the spec: the tactical-advice rule table. -/
def tacticalRules : List ((ScoreBreakdown → Bool) × String) :=
  [(fun b => decide (80 ≤ b.windScore),
     "Use wind to your advantage - Approach from downwind"),
   (fun b => decide (90 ≤ b.timeAdvantage),
     "Morning hunt - Focus on feeding areas and travel corridors")]

/-- Modelled from the spec: the equipment rule table. -/
def equipmentRules : List ((ScoreBreakdown → Bool) × String) :=
  [(fun _ => true, "Medium caliber rifle (.243 to .30-06) with scope"),
   (fun _ => true, "Quality binoculars for spotting")]

/-- Modelled from the spec: the opportunity rule table. -/
def opportunityRules : List ((ScoreBreakdown → Bool) × String) :=
  [(fun b => decide (80 ≤ b.windScore),
     "Light winds - Excellent for stalking"),
   (fun b => decide (100 ≤ b.temperatureScore),
     "Optimal temperature - Animals comfortable")]

/-- Evaluate an ordered rule table against a breakdown: append the
message of every matching predicate, in table order. -/
def applyRules (rules : List ((ScoreBreakdown → Bool) × String))
    (b : ScoreBreakdown) : List String :=
  (rules.filter (fun r => r.1 b)).map (fun r => r.2)

/-- Modelled from the spec: the Recommendation Synthesizer — a pure
function from ScoreBreakdown to AdvisoryResult by evaluating the ordered
rule tables. -/
def synthesize (b : ScoreBreakdown) : AdvisoryResult :=
  { recommendations := applyRules recommendationRules b
    tacticalAdvice := applyRules tacticalRules b
    equipmentRecommendations := applyRules equipmentRules b
    riskAssessment := applyRules riskRules b
    opportunityAnalysis := applyRules opportunityRules b }

/-- Lookup in a static key-to-record association list. -/
def findRecord {α : Type} (key : String) :
    List (String × α) → Option α
  | [] => none
  | (k, v) :: rest => if k = key then some v else findRecord key rest

/-- Modelled from the spec: static species profile of White-tailed Deer
(optimalTempRange [25,55], peak windows [[6,8],[17,19]], rut months
October and November, crepuscular). -/
def deerProfile : SpeciesProfile :=
  { speciesId := "White-tailed Deer"
    optimalTempLow := 25
    optimalTempHigh := 55
    peakActivityHours := [(6, 8), (17, 19)]
    rutSeasonMonths := [10, 11]
    feedingPattern := .Crepuscular
    windTolerance := 15
    pressureSensitivity := .Medium }

/-- Modelled from the spec: static species profile of Moose. -/
def mooseProfile : SpeciesProfile :=
  { speciesId := "Moose"
    optimalTempLow := 15
    optimalTempHigh := 35
    peakActivityHours := [(5, 9), (16, 20)]
    rutSeasonMonths := [9, 10]
    feedingPattern := .Crepuscular
    windTolerance := 12
    pressureSensitivity := .High }

/-- Modelled from the spec: static species profile of Black Bear. -/
def bearProfile : SpeciesProfile :=
  { speciesId := "Black Bear"
    optimalTempLow := 35
    optimalTempHigh := 65
    peakActivityHours := [(6, 10), (16, 20)]
    rutSeasonMonths := [6, 7]
    feedingPattern := .Diurnal
    windTolerance := 18
    pressureSensitivity := .Low }

/-- Modelled from the spec: the static Species Behavior Profile Store,
an immutable key-to-record map populated once at startup. -/
def speciesTable : List (String × SpeciesProfile) :=
  [("White-tailed Deer", deerProfile),
   ("Moose", mooseProfile),
   ("Black Bear", bearProfile)]

/-- Modelled from the spec: the static Location Habitat Lookup table. -/
def locationTable : List (String × LocationHabitat) :=
  [("First Connecticut Lake",
    { locationId := "First Connecticut Lake"
      habitatQuality := .Excellent
      populationDensity := 85
      accessDifficulty := .Moderate }),
   ("Colebrook State Forest",
    { locationId := "Colebrook State Forest"
      habitatQuality := .Good
      populationDensity := 70
      accessDifficulty := .Easy })]

/-- The full evaluation output: the breakdown together with the advisory
lists. -/
structure EvalOutput where
  breakdown : ScoreBreakdown
  advisory : AdvisoryResult
deriving DecidableEq

/-- Modelled from the spec: the single logical operation of the core —
evaluate(environmentalSnapshot, speciesId, locationId) over the static
tables, failing with NotFound on an unknown key and InvalidInput on a
structurally invalid snapshot, otherwise returning the breakdown and the
synthesized advisory. -/
def evaluate (snap : EnvironmentalSnapshot) (speciesId locationId : String)
    (inSeason : Bool) : Except EngineError EvalOutput :=
  match findRecord speciesId speciesTable with
  | none => .error .NotFound
  | some sp =>
    match findRecord locationId locationTable with
    | none => .error .NotFound
    | some loc =>
      if validSnapshot snap then
        let b := computeBreakdown snap sp loc inSeason
        .ok { breakdown := b, advisory := synthesize b }
      else .error .InvalidInput

/-- One hunt journal entry, from the entry objects of
mobile/src/screens/JournalScreen.js. -/
structure JournalEntry where
  id : ℕ
  date : String
  species : String
  location : String
  weather : String
  success : Bool
  notes : String
  equipment : String
deriving DecidableEq

/-- Number of successful entries:
entries.filter(entry => entry.success).length in JournalScreen.js. -/
def successCount (es : List JournalEntry) : ℕ :=
  (es.filter (fun e => e.success)).length

/-- JavaScript Math.round for the non-negative rationals produced by the
journal statistics: floor of the value plus one half. -/
def jsRound (q : ℚ) : ℤ := ⌊q + 1 / 2⌋

/-- The Success Rate statistic of JournalScreen.js:
Math.round((entries.filter(e => e.success).length / entries.length) * 100)
|| 0. On an empty list JavaScript computes 0/0 = NaN, Math.round(NaN) =
NaN, and NaN || 0 yields 0; when the rounded value is the falsy 0 the
|| 0 also yields 0. Both collapse to the 0 branch here. -/
def successRate (es : List JournalEntry) : ℤ :=
  if es.length = 0 then 0
  else jsRound (((successCount es : ℚ) / (es.length : ℚ)) * 100)

/-- The pending-entry form state (newEntry) of JournalScreen.js. -/
structure PendingEntry where
  species : String
  location : String
  weather : String
  success : Bool
  notes : String
  equipment : String
deriving DecidableEq

/-- The entry object addEntry builds: id from Date.now(), date from the
current day, the rest spread from the pending form state. -/
def mkEntry (now : ℕ) (today : String) (p : PendingEntry) : JournalEntry :=
  { id := now
    date := today
    species := p.species
    location := p.location
    weather := p.weather
    success := p.success
    notes := p.notes
    equipment := p.equipment }

/-- addEntry of JournalScreen.js, acting on the entries list: if species
or location is empty (falsy) it alerts and returns with the list
untouched, otherwise it sets the list to [entry, ...entries]. -/
def addEntry (now : ℕ) (today : String) (p : PendingEntry)
    (entries : List JournalEntry) : List JournalEntry :=
  if p.species = "" ∨ p.location = "" then entries
  else mkEntry now today p :: entries

/-- A concrete valid snapshot close to the worked scenario of the spec:
45 degrees F, 8 mph wind, partly cloudy, high pressure, 07:00, October. -/
def demoSnap : EnvironmentalSnapshot :=
  { temperature := 45
    windSpeed := 8
    condition := .PartlyCloudy
    barometricPressure := 31
    hour := 7
    month := 10 }

/-- A concrete invalid snapshot: negative wind speed. -/
def badSnap : EnvironmentalSnapshot :=
  { temperature := 45
    windSpeed := -1
    condition := .Sunny
    barometricPressure := 30
    hour := 7
    month := 10 }

/-- A concrete location record (the First Connecticut Lake entry of the
static table). -/
def demoLocation : LocationHabitat :=
  { locationId := "First Connecticut Lake"
    habitatQuality := .Excellent
    populationDensity := 85
    accessDifficulty := .Moderate }

/-- A concrete pending journal entry with an empty species field. -/
def demoPending : PendingEntry :=
  { species := ""
    location := "Colebrook, NH"
    weather := ""
    success := false
    notes := ""
    equipment := "" }

theorem clampScore_nonneg (q : ℚ) : 0 ≤ clampScore q :=
  le_min (by norm_num) (le_max_left 0 q)

theorem clampScore_le_100 (q : ℚ) : clampScore q ≤ 100 :=
  min_le_left 100 _

theorem clampScore_eq_self {q : ℚ} (h0 : 0 ≤ q) (h1 : q ≤ 100) :
    clampScore q = q := by
  unfold clampScore
  rw [max_eq_right h0, min_eq_right h1]

theorem tempDegradeRate_nonneg (ps : PressureSensitivity) :
    0 ≤ tempDegradeRate ps := by
  cases ps <;> norm_num [tempDegradeRate]

theorem distToRange_nonneg (low high t : ℚ) : 0 ≤ distToRange low high t := by
  unfold distToRange
  split_ifs <;> linarith

theorem temperatureScore_nonneg (p : SpeciesProfile) (t : ℚ) :
    0 ≤ temperatureScore p t :=
  le_max_left 0 _

theorem temperatureScore_le_100 (p : SpeciesProfile) (t : ℚ) :
    temperatureScore p t ≤ 100 := by
  unfold temperatureScore
  have h := mul_nonneg (tempDegradeRate_nonneg p.pressureSensitivity)
    (distToRange_nonneg p.optimalTempLow p.optimalTempHigh t)
  exact max_le (by norm_num) (by linarith)

theorem windScore_nonneg {tol : ℚ} (htol : 0 < tol) (w : ℚ) :
    0 ≤ windScore tol w := by
  unfold windScore windScoreFloor
  split_ifs with h
  · have : (100 - 20) * w / tol ≤ 80 := by
      rw [div_le_iff₀ htol]
      nlinarith
    linarith
  · exact le_max_left 0 _

theorem windScore_le_100 {tol : ℚ} (htol : 0 < tol) (w : ℚ) (hw : 0 ≤ w) :
    windScore tol w ≤ 100 := by
  unfold windScore windScoreFloor
  split_ifs with h
  · have : 0 ≤ (100 - 20) * w / tol :=
      div_nonneg (by nlinarith) (le_of_lt htol)
    linarith
  · push_neg at h
    have hwt : 0 ≤ 20 * (w - tol) / tol := by
      rw [mul_div_assoc]
      exact mul_nonneg (by norm_num) (div_nonneg (by linarith) (le_of_lt htol))
    exact max_le (by norm_num) (by linarith)

theorem pressurePenaltyFactor_nonneg (ps : PressureSensitivity) :
    0 ≤ pressurePenaltyFactor ps := by
  cases ps <;> norm_num [pressurePenaltyFactor]

theorem pressureScore_nonneg (ps : PressureSensitivity) (pr : ℚ) :
    0 ≤ pressureScore ps pr := by
  unfold pressureScore
  split_ifs
  · norm_num
  · exact le_max_left 0 _

theorem pressureScore_le_100 (ps : PressureSensitivity) (pr : ℚ) :
    pressureScore ps pr ≤ 100 := by
  unfold pressureScore
  split_ifs with h
  · norm_num
  · push_neg at h
    have := pressurePenaltyFactor_nonneg ps
    have hpen : 0 ≤ pressurePenaltyFactor ps * (30 - pr) := by nlinarith
    exact max_le (by norm_num) (by linarith)

theorem visibilityScore_nonneg (c : SkyCondition) : 0 ≤ visibilityScore c := by
  cases c <;> norm_num [visibilityScore]

theorem visibilityScore_le_100 (c : SkyCondition) :
    visibilityScore c ≤ 100 := by
  cases c <;> norm_num [visibilityScore]

theorem distToWindow_nonneg (h : ℚ) (w : ℚ × ℚ) : 0 ≤ distToWindow h w := by
  unfold distToWindow
  split_ifs <;> linarith

theorem foldr_min_nonneg (l : List ℚ) (a : ℚ) (ha : 0 ≤ a)
    (hl : ∀ x ∈ l, 0 ≤ x) : 0 ≤ l.foldr min a := by
  induction l with
  | nil => exact ha
  | cons x xs ih =>
    simp only [List.foldr]
    exact le_min (hl x (by simp)) (ih fun y hy => hl y (by simp [hy]))

theorem distToNearestWindow_nonneg (h : ℚ) (ws : List (ℚ × ℚ)) :
    0 ≤ distToNearestWindow h ws := by
  unfold distToNearestWindow
  refine foldr_min_nonneg _ _ (by norm_num) ?_
  intro x hx
  rcases List.mem_map.mp hx with ⟨w, _, rfl⟩
  exact distToWindow_nonneg h w

theorem timeAdvantage_nonneg (p : SpeciesProfile) (h : ℚ) :
    0 ≤ timeAdvantage p h := by
  unfold timeAdvantage
  split_ifs
  · norm_num
  · exact le_trans (by norm_num [timeAdvantageFloor])
      (le_max_left timeAdvantageFloor _)

theorem timeAdvantage_le_100 (p : SpeciesProfile) (h : ℚ) :
    timeAdvantage p h ≤ 100 := by
  unfold timeAdvantage
  split_ifs
  · norm_num
  · have := distToNearestWindow_nonneg h p.peakActivityHours
    exact max_le (by norm_num [timeAdvantageFloor]) (by linarith)

theorem seasonalAdvantage_nonneg (p : SpeciesProfile) (s : Bool) (m : ℕ) :
    0 ≤ seasonalAdvantage p s m := by
  unfold seasonalAdvantage
  split_ifs <;> norm_num [seasonalBaseline]

theorem seasonalAdvantage_le_100 (p : SpeciesProfile) (s : Bool) (m : ℕ) :
    seasonalAdvantage p s m ≤ 100 := by
  unfold seasonalAdvantage
  split_ifs <;> norm_num [seasonalBaseline]

theorem habitatQualityValue_bounds (q : HabitatQuality) :
    25 ≤ habitatQualityValue q ∧ habitatQualityValue q ≤ 100 := by
  cases q <;> norm_num [habitatQualityValue]

theorem locationAdvantage_nonneg (loc : LocationHabitat) :
    0 ≤ locationAdvantage loc := by
  unfold locationAdvantage
  have h1 := (habitatQualityValue_bounds loc.habitatQuality).1
  have h2 := clampScore_nonneg loc.populationDensity
  linarith

theorem locationAdvantage_le_100 (loc : LocationHabitat) :
    locationAdvantage loc ≤ 100 := by
  unfold locationAdvantage
  have h1 := (habitatQualityValue_bounds loc.habitatQuality).2
  have h2 := clampScore_le_100 loc.populationDensity
  linarith

theorem computeBreakdown_temperatureScore (snap : EnvironmentalSnapshot)
    (sp : SpeciesProfile) (loc : LocationHabitat) (s : Bool) :
    (computeBreakdown snap sp loc s).temperatureScore =
      temperatureScore sp snap.temperature := rfl

theorem computeBreakdown_windScore (snap : EnvironmentalSnapshot)
    (sp : SpeciesProfile) (loc : LocationHabitat) (s : Bool) :
    (computeBreakdown snap sp loc s).windScore =
      windScore sp.windTolerance snap.windSpeed := rfl

theorem computeBreakdown_pressureScore (snap : EnvironmentalSnapshot)
    (sp : SpeciesProfile) (loc : LocationHabitat) (s : Bool) :
    (computeBreakdown snap sp loc s).pressureScore =
      pressureScore sp.pressureSensitivity snap.barometricPressure := rfl

theorem computeBreakdown_visibilityScore (snap : EnvironmentalSnapshot)
    (sp : SpeciesProfile) (loc : LocationHabitat) (s : Bool) :
    (computeBreakdown snap sp loc s).visibilityScore =
      visibilityScore snap.condition := rfl

theorem computeBreakdown_weatherAdvantage (snap : EnvironmentalSnapshot)
    (sp : SpeciesProfile) (loc : LocationHabitat) (s : Bool) :
    (computeBreakdown snap sp loc s).weatherAdvantage =
      (temperatureScore sp snap.temperature +
        windScore sp.windTolerance snap.windSpeed +
        pressureScore sp.pressureSensitivity snap.barometricPressure +
        visibilityScore snap.condition) / 4 := rfl

theorem computeBreakdown_timeAdvantage (snap : EnvironmentalSnapshot)
    (sp : SpeciesProfile) (loc : LocationHabitat) (s : Bool) :
    (computeBreakdown snap sp loc s).timeAdvantage =
      timeAdvantage sp snap.hour := rfl

theorem computeBreakdown_seasonalAdvantage (snap : EnvironmentalSnapshot)
    (sp : SpeciesProfile) (loc : LocationHabitat) (s : Bool) :
    (computeBreakdown snap sp loc s).seasonalAdvantage =
      seasonalAdvantage sp s snap.month := rfl

theorem computeBreakdown_locationAdvantage (snap : EnvironmentalSnapshot)
    (sp : SpeciesProfile) (loc : LocationHabitat) (s : Bool) :
    (computeBreakdown snap sp loc s).locationAdvantage =
      locationAdvantage loc := rfl

theorem computeBreakdown_animalActivityScore (snap : EnvironmentalSnapshot)
    (sp : SpeciesProfile) (loc : LocationHabitat) (s : Bool) :
    (computeBreakdown snap sp loc s).animalActivityScore =
      clampScore ((30 / 100) * temperatureScore sp snap.temperature +
        (20 / 100) * windScore sp.windTolerance snap.windSpeed +
        (15 / 100) * pressureScore sp.pressureSensitivity
          snap.barometricPressure +
        (20 / 100) * timeAdvantage sp snap.hour +
        (15 / 100) * seasonalAdvantage sp s snap.month) := rfl

theorem computeBreakdown_huntingEffectiveness (snap : EnvironmentalSnapshot)
    (sp : SpeciesProfile) (loc : LocationHabitat) (s : Bool) :
    (computeBreakdown snap sp loc s).huntingEffectiveness =
      clampScore
        ((40 / 100) * (computeBreakdown snap sp loc s).animalActivityScore +
          (20 / 100) * (computeBreakdown snap sp loc s).weatherAdvantage +
          (20 / 100) * timeAdvantage sp snap.hour +
          (20 / 100) * locationAdvantage loc) := rfl

theorem computeBreakdown_overallRating (snap : EnvironmentalSnapshot)
    (sp : SpeciesProfile) (loc : LocationHabitat) (s : Bool) :
    (computeBreakdown snap sp loc s).overallRating =
      overallRatingOf (computeBreakdown snap sp loc s).huntingEffectiveness :=
  rfl

/-- C2: for every valid EnvironmentalSnapshot/SpeciesProfile pair, every
sub-score (temperature, wind, pressure, visibility, weatherAdvantage,
timeAdvantage, seasonalAdvantage, locationAdvantage) and both composites
(animalActivityScore, huntingEffectiveness) of the resulting
ScoreBreakdown lie in the closed interval [0,100]. -/
theorem scoreBreakdown_in_range (snap : EnvironmentalSnapshot)
    (sp : SpeciesProfile) (loc : LocationHabitat) (s : Bool)
    (hsnap : validSnapshot snap) (hsp : validProfile sp) :
    (0 ≤ (computeBreakdown snap sp loc s).temperatureScore ∧
      (computeBreakdown snap sp loc s).temperatureScore ≤ 100) ∧
    (0 ≤ (computeBreakdown snap sp loc s).windScore ∧
      (computeBreakdown snap sp loc s).windScore ≤ 100) ∧
    (0 ≤ (computeBreakdown snap sp loc s).pressureScore ∧
      (computeBreakdown snap sp loc s).pressureScore ≤ 100) ∧
    (0 ≤ (computeBreakdown snap sp loc s).visibilityScore ∧
      (computeBreakdown snap sp loc s).visibilityScore ≤ 100) ∧
    (0 ≤ (computeBreakdown snap sp loc s).weatherAdvantage ∧
      (computeBreakdown snap sp loc s).weatherAdvantage ≤ 100) ∧
    (0 ≤ (computeBreakdown snap sp loc s).timeAdvantage ∧
      (computeBreakdown snap sp loc s).timeAdvantage ≤ 100) ∧
    (0 ≤ (computeBreakdown snap sp loc s).seasonalAdvantage ∧
      (computeBreakdown snap sp loc s).seasonalAdvantage ≤ 100) ∧
    (0 ≤ (computeBreakdown snap sp loc s).locationAdvantage ∧
      (computeBreakdown snap sp loc s).locationAdvantage ≤ 100) ∧
    (0 ≤ (computeBreakdown snap sp loc s).animalActivityScore ∧
      (computeBreakdown snap sp loc s).animalActivityScore ≤ 100) ∧
    (0 ≤ (computeBreakdown snap sp loc s).huntingEffectiveness ∧
      (computeBreakdown snap sp loc s).huntingEffectiveness ≤ 100) := by
  obtain ⟨hws, hbp, hh0, hh1⟩ := hsnap
  obtain ⟨hrange, htol, hwins⟩ := hsp
  have hts0 := temperatureScore_nonneg sp snap.temperature
  have hts1 := temperatureScore_le_100 sp snap.temperature
  have hw0 := windScore_nonneg htol snap.windSpeed
  have hw1 := windScore_le_100 htol snap.windSpeed hws
  have hp0 :=
    pressureScore_nonneg sp.pressureSensitivity snap.barometricPressure
  have hp1 :=
    pressureScore_le_100 sp.pressureSensitivity snap.barometricPressure
  have hv0 := visibilityScore_nonneg snap.condition
  have hv1 := visibilityScore_le_100 snap.condition
  have hta0 := timeAdvantage_nonneg sp snap.hour
  have hta1 := timeAdvantage_le_100 sp snap.hour
  have hsa0 := seasonalAdvantage_nonneg sp s snap.month
  have hsa1 := seasonalAdvantage_le_100 sp s snap.month
  have hla0 := locationAdvantage_nonneg loc
  have hla1 := locationAdvantage_le_100 loc
  refine ⟨⟨hts0, hts1⟩, ⟨hw0, hw1⟩, ⟨hp0, hp1⟩, ⟨hv0, hv1⟩,
    ⟨?_, ?_⟩, ⟨hta0, hta1⟩, ⟨hsa0, hsa1⟩, ⟨hla0, hla1⟩, ⟨?_, ?_⟩, ⟨?_, ?_⟩⟩
  · rw [computeBreakdown_weatherAdvantage]; linarith
  · rw [computeBreakdown_weatherAdvantage]; linarith
  · rw [computeBreakdown_animalActivityScore]; exact clampScore_nonneg _
  · rw [computeBreakdown_animalActivityScore]; exact clampScore_le_100 _
  · rw [computeBreakdown_huntingEffectiveness]; exact clampScore_nonneg _
  · rw [computeBreakdown_huntingEffectiveness]; exact clampScore_le_100 _

theorem scoreBreakdown_in_range_witness :
    validSnapshot demoSnap ∧ validProfile deerProfile ∧
    (0 ≤ (computeBreakdown demoSnap deerProfile demoLocation
        true).huntingEffectiveness ∧
      (computeBreakdown demoSnap deerProfile demoLocation
        true).huntingEffectiveness ≤ 100) :=
  ⟨by decide, by decide,
    (scoreBreakdown_in_range demoSnap deerProfile demoLocation true
      (by decide) (by decide)).2.2.2.2.2.2.2.2.2⟩

/-- C1: for every evaluation with valid inputs, animalActivityScore is
the weighted sum 0.30 temperature + 0.20 wind + 0.15 pressure +
0.20 timeAdvantage + 0.15 seasonalAdvantage, weatherAdvantage is the
average of the temperature, wind, pressure, and visibility scores, and
huntingEffectiveness is 0.40 animalActivityScore +
0.20 weatherAdvantage + 0.20 timeAdvantage + 0.20 locationAdvantage. -/
theorem composite_weights (snap : EnvironmentalSnapshot)
    (sp : SpeciesProfile) (loc : LocationHabitat) (s : Bool)
    (hsnap : validSnapshot snap) (hsp : validProfile sp) :
    (computeBreakdown snap sp loc s).animalActivityScore =
      (30 / 100) * (computeBreakdown snap sp loc s).temperatureScore +
      (20 / 100) * (computeBreakdown snap sp loc s).windScore +
      (15 / 100) * (computeBreakdown snap sp loc s).pressureScore +
      (20 / 100) * (computeBreakdown snap sp loc s).timeAdvantage +
      (15 / 100) * (computeBreakdown snap sp loc s).seasonalAdvantage ∧
    (computeBreakdown snap sp loc s).weatherAdvantage =
      ((computeBreakdown snap sp loc s).temperatureScore +
        (computeBreakdown snap sp loc s).windScore +
        (computeBreakdown snap sp loc s).pressureScore +
        (computeBreakdown snap sp loc s).visibilityScore) / 4 ∧
    (computeBreakdown snap sp loc s).huntingEffectiveness =
      (40 / 100) * (computeBreakdown snap sp loc s).animalActivityScore +
      (20 / 100) * (computeBreakdown snap sp loc s).weatherAdvantage +
      (20 / 100) * (computeBreakdown snap sp loc s).timeAdvantage +
      (20 / 100) * (computeBreakdown snap sp loc s).locationAdvantage := by
  obtain ⟨hws, hbp, hh0, hh1⟩ := hsnap
  obtain ⟨hrange, htol, hwins⟩ := hsp
  have hts0 := temperatureScore_nonneg sp snap.temperature
  have hts1 := temperatureScore_le_100 sp snap.temperature
  have hw0 := windScore_nonneg htol snap.windSpeed
  have hw1 := windScore_le_100 htol snap.windSpeed hws
  have hp0 :=
    pressureScore_nonneg sp.pressureSensitivity snap.barometricPressure
  have hp1 :=
    pressureScore_le_100 sp.pressureSensitivity snap.barometricPressure
  have hv0 := visibilityScore_nonneg snap.condition
  have hv1 := visibilityScore_le_100 snap.condition
  have hta0 := timeAdvantage_nonneg sp snap.hour
  have hta1 := timeAdvantage_le_100 sp snap.hour
  have hsa0 := seasonalAdvantage_nonneg sp s snap.month
  have hsa1 := seasonalAdvantage_le_100 sp s snap.month
  have hla0 := locationAdvantage_nonneg loc
  have hla1 := locationAdvantage_le_100 loc
  have haas : (computeBreakdown snap sp loc s).animalActivityScore =
      (30 / 100) * temperatureScore sp snap.temperature +
      (20 / 100) * windScore sp.windTolerance snap.windSpeed +
      (15 / 100) * pressureScore sp.pressureSensitivity
        snap.barometricPressure +
      (20 / 100) * timeAdvantage sp snap.hour +
      (15 / 100) * seasonalAdvantage sp s snap.month := by
    rw [computeBreakdown_animalActivityScore]
    exact clampScore_eq_self (by linarith) (by linarith)
  have hwa := computeBreakdown_weatherAdvantage snap sp loc s
  have haas0 : 0 ≤ (computeBreakdown snap sp loc s).animalActivityScore := by
    rw [computeBreakdown_animalActivityScore]; exact clampScore_nonneg _
  have haas1 :
      (computeBreakdown snap sp loc s).animalActivityScore ≤ 100 := by
    rw [computeBreakdown_animalActivityScore]; exact clampScore_le_100 _
  refine ⟨?_, ?_, ?_⟩
  · rw [haas, computeBreakdown_temperatureScore, computeBreakdown_windScore,
      computeBreakdown_pressureScore, computeBreakdown_timeAdvantage,
      computeBreakdown_seasonalAdvantage]
  · rw [hwa, computeBreakdown_temperatureScore, computeBreakdown_windScore,
      computeBreakdown_pressureScore, computeBreakdown_visibilityScore]
  · rw [computeBreakdown_huntingEffectiveness, computeBreakdown_timeAdvantage,
      computeBreakdown_locationAdvantage]
    refine clampScore_eq_self (by rw [hwa]; linarith) (by rw [hwa]; linarith)

theorem composite_weights_witness :
    validSnapshot demoSnap ∧ validProfile deerProfile ∧
    (computeBreakdown demoSnap deerProfile demoLocation
        true).animalActivityScore =
      (30 / 100) * (computeBreakdown demoSnap deerProfile demoLocation
        true).temperatureScore +
      (20 / 100) * (computeBreakdown demoSnap deerProfile demoLocation
        true).windScore +
      (15 / 100) * (computeBreakdown demoSnap deerProfile demoLocation
        true).pressureScore +
      (20 / 100) * (computeBreakdown demoSnap deerProfile demoLocation
        true).timeAdvantage +
      (15 / 100) * (computeBreakdown demoSnap deerProfile demoLocation
        true).seasonalAdvantage :=
  ⟨by decide, by decide,
    (composite_weights demoSnap deerProfile demoLocation true
      (by decide) (by decide)).1⟩

theorem overallRatingOf_iff (e : ℚ) :
    (overallRatingOf e = Rating.Poor ↔ e < 40) ∧
    (overallRatingOf e = Rating.Fair ↔ 40 ≤ e ∧ e < 65) ∧
    (overallRatingOf e = Rating.Good ↔ 65 ≤ e ∧ e < 85) ∧
    (overallRatingOf e = Rating.Excellent ↔ 85 ≤ e) := by
  unfold overallRatingOf
  by_cases h1 : e < 40
  · rw [if_pos h1]
    refine ⟨⟨fun _ => h1, fun _ => rfl⟩, ⟨fun hx => ?_, fun hx => ?_⟩,
      ⟨fun hx => ?_, fun hx => ?_⟩, ⟨fun hx => ?_, fun hx => ?_⟩⟩
    · cases hx
    · exact False.elim (by linarith [hx.1])
    · cases hx
    · exact False.elim (by linarith [hx.1])
    · cases hx
    · exact False.elim (by linarith)
  · by_cases h2 : e < 65
    · rw [if_neg h1, if_pos h2]
      push_neg at h1
      refine ⟨⟨fun hx => ?_, fun hx => ?_⟩,
        ⟨fun _ => ⟨h1, h2⟩, fun _ => rfl⟩,
        ⟨fun hx => ?_, fun hx => ?_⟩, ⟨fun hx => ?_, fun hx => ?_⟩⟩
      · cases hx
      · exact False.elim (by linarith)
      · cases hx
      · exact False.elim (by linarith [hx.1])
      · cases hx
      · exact False.elim (by linarith)
    · by_cases h3 : e < 85
      · rw [if_neg h1, if_neg h2, if_pos h3]
        push_neg at h1 h2
        refine ⟨⟨fun hx => ?_, fun hx => ?_⟩, ⟨fun hx => ?_, fun hx => ?_⟩,
          ⟨fun _ => ⟨h2, h3⟩, fun _ => rfl⟩,
          ⟨fun hx => ?_, fun hx => ?_⟩⟩
        · cases hx
        · exact False.elim (by linarith)
        · cases hx
        · exact False.elim (by linarith [hx.2])
        · cases hx
        · exact False.elim (by linarith)
      · rw [if_neg h1, if_neg h2, if_neg h3]
        push_neg at h1 h2 h3
        refine ⟨⟨fun hx => ?_, fun hx => ?_⟩, ⟨fun hx => ?_, fun hx => ?_⟩,
          ⟨fun hx => ?_, fun hx => ?_⟩, ⟨fun _ => h3, fun _ => rfl⟩⟩
        · cases hx
        · exact False.elim (by linarith)
        · cases hx
        · exact False.elim (by linarith [hx.2])
        · cases hx
        · exact False.elim (by linarith [hx.2])

/-- C3: for every evaluation, overallRating is exactly the fixed band of
huntingEffectiveness: Poor below 40, Fair on [40,65), Good on [65,85),
Excellent from 85 on; in particular a huntingEffectiveness of 87.5 yields
the rating Excellent. -/
theorem overallRating_bands (snap : EnvironmentalSnapshot)
    (sp : SpeciesProfile) (loc : LocationHabitat) (s : Bool) :
    ((computeBreakdown snap sp loc s).overallRating = Rating.Poor ↔
      (computeBreakdown snap sp loc s).huntingEffectiveness < 40) ∧
    ((computeBreakdown snap sp loc s).overallRating = Rating.Fair ↔
      40 ≤ (computeBreakdown snap sp loc s).huntingEffectiveness ∧
        (computeBreakdown snap sp loc s).huntingEffectiveness < 65) ∧
    ((computeBreakdown snap sp loc s).overallRating = Rating.Good ↔
      65 ≤ (computeBreakdown snap sp loc s).huntingEffectiveness ∧
        (computeBreakdown snap sp loc s).huntingEffectiveness < 85) ∧
    ((computeBreakdown snap sp loc s).overallRating = Rating.Excellent ↔
      85 ≤ (computeBreakdown snap sp loc s).huntingEffectiveness) ∧
    overallRatingOf (175 / 2) = Rating.Excellent := by
  have h :=
    overallRatingOf_iff (computeBreakdown snap sp loc s).huntingEffectiveness
  rw [computeBreakdown_overallRating]
  refine ⟨h.1, h.2.1, h.2.2.1, h.2.2.2, ?_⟩
  unfold overallRatingOf
  norm_num

/-- C4: the pipeline is deterministic — two evaluate calls whose
EnvironmentalSnapshot fields, speciesId, locationId, and season flag all
agree return identical results; the embedding is a pure function of
exactly these arguments, with no other source of variation. -/
theorem evaluate_deterministic (s1 s2 : EnvironmentalSnapshot)
    (sid1 sid2 lid1 lid2 : String) (se1 se2 : Bool)
    (ht : s1.temperature = s2.temperature)
    (hw : s1.windSpeed = s2.windSpeed)
    (hc : s1.condition = s2.condition)
    (hp : s1.barometricPressure = s2.barometricPressure)
    (hh : s1.hour = s2.hour)
    (hm : s1.month = s2.month)
    (hsid : sid1 = sid2) (hlid : lid1 = lid2) (hse : se1 = se2) :
    evaluate s1 sid1 lid1 se1 = evaluate s2 sid2 lid2 se2 := by
  have hs : s1 = s2 := by
    cases s1
    cases s2
    simp_all
  rw [hs, hsid, hlid, hse]

theorem evaluate_deterministic_witness :
    evaluate demoSnap "White-tailed Deer" "First Connecticut Lake" true =
      evaluate demoSnap "White-tailed Deer" "First Connecticut Lake" true :=
  evaluate_deterministic demoSnap demoSnap _ _ _ _ _ _
    rfl rfl rfl rfl rfl rfl rfl rfl rfl

/-- C5: an evaluate call with a speciesId or locationId that is not in
the static tables fails with NotFound (the Except error carries no
partial ScoreBreakdown), and a successful lookup only ever returns a
record actually present in the table — never a defaulted one. -/
theorem evaluate_notFound :
    (∀ (snap : EnvironmentalSnapshot) (speciesId locationId : String)
        (s : Bool),
      findRecord speciesId speciesTable = none ∨
        findRecord locationId locationTable = none →
      evaluate snap speciesId locationId s =
        Except.error EngineError.NotFound) ∧
    (∀ (α : Type) (key : String) (tbl : List (String × α)) (v : α),
      findRecord key tbl = some v → (key, v) ∈ tbl) := by
  constructor
  · intro snap speciesId locationId s h
    rcases h with h | h
    · simp [evaluate, h]
    · cases hs : findRecord speciesId speciesTable <;>
        simp [evaluate, hs, h]
  · intro α key tbl v h
    induction tbl with
    | nil => simp [findRecord] at h
    | cons kv rest ih =>
      obtain ⟨k, w⟩ := kv
      simp only [findRecord] at h
      split_ifs at h with hk
      · injection h with h2
        subst hk
        subst h2
        exact List.mem_cons_self _ _
      · exact List.mem_cons_of_mem _ (ih h)

theorem evaluate_notFound_witness :
    (findRecord "Unicorn" speciesTable = none ∨
      findRecord "Unicorn" locationTable = none) ∧
    evaluate demoSnap "Unicorn" "First Connecticut Lake" true =
      Except.error EngineError.NotFound :=
  ⟨Or.inl (by decide),
    evaluate_notFound.1 demoSnap "Unicorn" "First Connecticut Lake" true
      (Or.inl (by decide))⟩

/-- C6: a snapshot with negative windSpeed or non-positive
barometricPressure makes the Normalizer fail with InvalidInput rather
than clamping, while every structurally valid snapshot — poor hunting
conditions included — normalizes successfully, so InvalidInput is never
used for merely low-score conditions. -/
theorem normalizeSnapshot_invalidInput :
    (∀ (snap : EnvironmentalSnapshot) (sp : SpeciesProfile),
      snap.windSpeed < 0 ∨ snap.barometricPressure ≤ 0 →
      normalizeSnapshot snap sp =
        Except.error EngineError.InvalidInput) ∧
    (∀ (snap : EnvironmentalSnapshot) (sp : SpeciesProfile),
      validSnapshot snap →
      ∃ ns : NormScores, normalizeSnapshot snap sp = Except.ok ns) := by
  constructor
  · intro snap sp h
    unfold normalizeSnapshot
    rw [if_neg]
    intro hv
    obtain ⟨h1, h2, _⟩ := hv
    rcases h with h | h <;> linarith
  · intro snap sp h
    unfold normalizeSnapshot
    rw [if_pos h]
    exact ⟨_, rfl⟩

theorem normalizeSnapshot_invalidInput_witness :
    (badSnap.windSpeed < 0 ∨ badSnap.barometricPressure ≤ 0) ∧
    normalizeSnapshot badSnap deerProfile =
      Except.error EngineError.InvalidInput :=
  ⟨Or.inl (by decide),
    normalizeSnapshot_invalidInput.1 badSnap deerProfile
      (Or.inl (by decide))⟩

theorem windScore_at_tol {tol : ℚ} (htol : 0 < tol) :
    windScore tol tol = windScoreFloor := by
  unfold windScore
  rw [if_pos le_rfl, mul_div_assoc, div_self (ne_of_gt htol), mul_one]
  ring

theorem windScore_beyond {tol w : ℚ} (hw : tol < w) :
    windScore tol w =
      max 0 (windScoreFloor - windScoreFloor * (w - tol) / tol) := by
  unfold windScore
  rw [if_neg (not_le.mpr hw)]

/-- C7: the wind score is 100 at wind speed 0, equals the configured
floor (20) at windTolerance via the linear formula on [0, tol], keeps
decreasing (never below 0) beyond tolerance, reaches 0 at twice the
tolerance, and an evaluation at windSpeed = 2 x windTolerance puts the
high-wind warning into the risk list. -/
theorem windScore_profile (tol : ℚ) (htol : 0 < tol) :
    windScore tol 0 = 100 ∧
    windScore tol tol = windScoreFloor ∧
    (∀ w, w ≤ tol →
      windScore tol w = 100 - (100 - windScoreFloor) * w / tol) ∧
    (∀ w1 w2, tol ≤ w1 → w1 ≤ w2 →
      windScore tol w2 ≤ windScore tol w1) ∧
    (∀ w, 0 ≤ windScore tol w) ∧
    windScore tol (2 * tol) = 0 ∧
    (∀ (snap : EnvironmentalSnapshot) (sp : SpeciesProfile)
        (loc : LocationHabitat) (s : Bool),
      sp.windTolerance = tol → snap.windSpeed = 2 * tol →
      highWindRiskMsg ∈
        (synthesize (computeBreakdown snap sp loc s)).riskAssessment) := by
  have hne := ne_of_gt htol
  have hfl : (0 : ℚ) ≤ windScoreFloor := by norm_num [windScoreFloor]
  have h2tol : windScore tol (2 * tol) = 0 := by
    rw [windScore_beyond (by linarith)]
    have he : windScoreFloor * (2 * tol - tol) / tol = windScoreFloor := by
      have h : 2 * tol - tol = tol := by ring
      rw [h, mul_div_assoc, div_self hne, mul_one]
    rw [he]
    simp
  refine ⟨?_, windScore_at_tol htol, ?_, ?_, ?_, h2tol, ?_⟩
  · unfold windScore
    rw [if_pos htol.le]
    simp
  · intro w hw1
    unfold windScore
    rw [if_pos hw1]
  · intro w1 w2 h1 h2
    by_cases hgt : tol < w1
    · have hgt2 : tol < w2 := lt_of_lt_of_le hgt h2
      rw [windScore_beyond hgt, windScore_beyond hgt2]
      refine max_le_max le_rfl ?_
      have hdiv : windScoreFloor * (w1 - tol) / tol ≤
          windScoreFloor * (w2 - tol) / tol := by
        rw [div_le_div_iff_of_pos_right htol]
        nlinarith
      linarith
    · have h1e : w1 = tol := le_antisymm (not_lt.mp hgt) h1
      rw [h1e, windScore_at_tol htol]
      rcases lt_or_le tol w2 with hw2 | hw2
      · rw [windScore_beyond hw2]
        refine max_le hfl ?_
        have : 0 ≤ windScoreFloor * (w2 - tol) / tol :=
          div_nonneg (mul_nonneg hfl (by linarith)) htol.le
        linarith
      · have h2e : w2 = tol := le_antisymm hw2 (h1e ▸ h2)
        rw [h2e, windScore_at_tol htol]
  · intro w
    exact windScore_nonneg htol w
  · intro snap sp loc s hsp hw
    have hb : (computeBreakdown snap sp loc s).windScore = 0 := by
      rw [computeBreakdown_windScore, hsp, hw]
      exact h2tol
    show highWindRiskMsg ∈ applyRules riskRules (computeBreakdown snap sp loc s)
    unfold applyRules riskRules
    refine List.mem_map.mpr
      ⟨(fun b => decide (b.windScore < 40), highWindRiskMsg),
        List.mem_filter.mpr ⟨List.mem_cons_self _ _, ?_⟩, rfl⟩
    exact decide_eq_true (by rw [hb]; norm_num)

theorem windScore_profile_witness :
    (0 : ℚ) < 15 ∧ windScore 15 (2 * 15) = 0 :=
  ⟨by norm_num, (windScore_profile 15 (by norm_num)).2.2.2.2.2.1⟩

theorem distToRange_mono {low high t1 t2 : ℚ} (hlh : low ≤ high)
    (h : |t2 - (low + high) / 2| ≤ |t1 - (low + high) / 2|) :
    distToRange low high t2 ≤ distToRange low high t1 := by
  rcases abs_cases (t1 - (low + high) / 2) with ⟨e1, s1⟩ | ⟨e1, s1⟩ <;>
    rcases abs_cases (t2 - (low + high) / 2) with ⟨e2, s2⟩ | ⟨e2, s2⟩ <;>
    rw [e1, e2] at h <;>
    unfold distToRange <;>
    split_ifs <;>
    linarith

/-- C8: for a valid profile, the temperature score is 100 everywhere
inside optimalTempRange, is never negative, and moving the temperature
strictly closer to the midpoint of optimalTempRange (all else fixed)
never decreases it. -/
theorem temperatureScore_spec (sp : SpeciesProfile) (hsp : validProfile sp) :
    (∀ t, sp.optimalTempLow ≤ t → t ≤ sp.optimalTempHigh →
      temperatureScore sp t = 100) ∧
    (∀ t, 0 ≤ temperatureScore sp t) ∧
    (∀ t1 t2,
      |t2 - (sp.optimalTempLow + sp.optimalTempHigh) / 2| <
        |t1 - (sp.optimalTempLow + sp.optimalTempHigh) / 2| →
      temperatureScore sp t1 ≤ temperatureScore sp t2) := by
  obtain ⟨hrange, -, -⟩ := hsp
  refine ⟨?_, ?_, ?_⟩
  · intro t h1 h2
    unfold temperatureScore distToRange
    rw [if_neg (not_lt.mpr h1), if_neg (not_lt.mpr h2), mul_zero]
    norm_num
  · intro t
    exact temperatureScore_nonneg sp t
  · intro t1 t2 h
    have hd : distToRange sp.optimalTempLow sp.optimalTempHigh t2 ≤
        distToRange sp.optimalTempLow sp.optimalTempHigh t1 :=
      distToRange_mono hrange.le h.le
    unfold temperatureScore
    have hr := tempDegradeRate_nonneg sp.pressureSensitivity
    have hm := mul_le_mul_of_nonneg_left hd hr
    exact max_le_max le_rfl (by linarith)

theorem temperatureScore_spec_witness :
    validProfile deerProfile ∧ temperatureScore deerProfile 45 = 100 :=
  ⟨by decide,
    (temperatureScore_spec deerProfile (by decide)).1 45 (by decide)
      (by decide)⟩

/-- C9: the JournalScreen success rate is always in [0,100]: it equals
Math.round(100 * successful / total) on a non-empty entry list and is 0
(never NaN) on the empty list, thanks to the falsy-collapsing or-zero
guard. -/
theorem successRate_spec :
    successRate [] = 0 ∧
    (∀ es : List JournalEntry,
      0 ≤ successRate es ∧ successRate es ≤ 100) ∧
    (∀ (e : JournalEntry) (es : List JournalEntry),
      successRate (e :: es) =
        jsRound (100 * (successCount (e :: es) : ℚ) /
          ((e :: es).length : ℚ))) := by
  refine ⟨rfl, ?_, ?_⟩
  · intro es
    by_cases h : es.length = 0
    · simp [successRate, h]
    · have hlen : 0 < ((es.length : ℚ)) := by
        exact_mod_cast Nat.pos_of_ne_zero h
      have hsc0 : (0 : ℚ) ≤ (successCount es : ℚ) := by positivity
      have hsc : (successCount es : ℚ) ≤ (es.length : ℚ) := by
        exact_mod_cast List.length_filter_le _ es
      have hx0 : (0 : ℚ) ≤ (successCount es : ℚ) / (es.length : ℚ) * 100 :=
        by positivity
      have hx1 : (successCount es : ℚ) / (es.length : ℚ) * 100 ≤ 100 := by
        have hdiv : (successCount es : ℚ) / (es.length : ℚ) ≤ 1 :=
          (div_le_one hlen).mpr hsc
        nlinarith
      constructor
      · simp only [successRate, if_neg h, jsRound]
        exact Int.le_floor.mpr (by push_cast; linarith)
      · simp only [successRate, if_neg h, jsRound]
        have hle : ⌊(successCount es : ℚ) / (es.length : ℚ) * 100 + 1 / 2⌋ ≤
            ⌊(100 : ℚ) + 1 / 2⌋ :=
          Int.floor_le_floor (by linarith)
        have h100 : ⌊(100 : ℚ) + 1 / 2⌋ = 100 := by
          rw [Int.floor_eq_iff]
          norm_num
        omega
  · intro e es
    have h : (e :: es).length ≠ 0 := by simp
    simp only [successRate, if_neg h, jsRound]
    congr 1
    ring

/-- C10: addEntry is atomic on invalid input — with an empty species or
location it leaves the entries list unchanged; otherwise it prepends
exactly one new entry, keeping every stored entry and their order. -/
theorem addEntry_spec (now : ℕ) (today : String) (p : PendingEntry)
    (es : List JournalEntry) :
    (p.species = "" ∨ p.location = "" → addEntry now today p es = es) ∧
    (p.species ≠ "" → p.location ≠ "" →
      addEntry now today p es = mkEntry now today p :: es) := by
  constructor
  · intro h
    unfold addEntry
    rw [if_pos h]
  · intro h1 h2
    unfold addEntry
    rw [if_neg (fun hc => hc.elim h1 h2)]

theorem addEntry_spec_witness :
    (demoPending.species = "" ∨ demoPending.location = "") ∧
    addEntry 1 "2024-10-15" demoPending [] = [] :=
  ⟨Or.inl rfl,
    (addEntry_spec 1 "2024-10-15" demoPending []).1 (Or.inl rfl)⟩

theorem overallRating_bands_witness :
    overallRatingOf (175 / 2) = Rating.Excellent :=
  (overallRating_bands demoSnap deerProfile demoLocation true).2.2.2.2

theorem successRate_spec_witness :
    0 ≤ successRate [] ∧ successRate [] ≤ 100 :=
  successRate_spec.2.1 []
